import Mathlib

/-!
# Verification of the mockup-generator catalog client and job pipeline

Shallow embedding of the MBC catalog generator frontend
(`src/frontend/src/components/CatalogGenerator.jsx`,
`src/frontend/src/utils/helpers.js`, the `StatusMessage` component, the
`getUniqueValues` copy appended to `ProgressBar.jsx`, and the constants in
`src/config.js`), together with spec-modelled definitions for the backend
job orchestrator (which is not part of the frontend sources).

JavaScript conventions used throughout the embedding:
* a JS string value that may be `null`/`undefined` is `Option String`
  (`none` = nullish); truthiness of such a value is `jsTruthy`;
* a plain JS string state (initialised to `''`) is `String`, truthy iff
  nonempty;
* `x || d` on an optional number is `jsOrZero` / on an optional string is
  `jsOrDefault`.
-/

namespace MockupGen

/-- JS truthiness of a possibly-nullish string value:
`undefined`/`null` and `''` are falsy. -/
def jsTruthy : Option String → Bool
  | none => false
  | some s => s ≠ ""

/-- JS `x || 0` for a possibly-nullish number (`job.progress || 0`). -/
def jsOrZero : Option Nat → Nat
  | none => 0
  | some n => n

/-- JS `x || d` for a possibly-nullish string
(`job.error_message || 'Erro ao gerar catálogo'`). -/
def jsOrDefault (x : Option String) (d : String) : String :=
  match x with
  | none => d
  | some s => if s = "" then d else s

/-- JS `String.prototype.trim()`: remove whitespace from both ends of
the string. -/
def jsTrim (s : String) : String :=
  ⟨((s.data.dropWhile Char.isWhitespace).reverse.dropWhile
      Char.isWhitespace).reverse⟩

/-- A browser `File` object, as far as the client code inspects it:
its byte size and its contents (stood for by a string; `fileToBase64`
reads the contents as a base64 string). -/
structure File where
  size : Nat
  data : String
deriving DecidableEq, Repr

/-- Function `fileToBase64` from `src/frontend/src/utils/helpers.js`: reads the
file and resolves with its base64 payload. -/
def fileToBase64 (file : File) : String := file.data

/-- Function `validateLogoSize` from `src/frontend/src/utils/helpers.js`:
`return file.size <= maxSize;` -/
def validateLogoSize (file : File) (maxSize : Nat) : Bool :=
  file.size ≤ maxSize

/-- Constant `POLL_INTERVAL = 2000` (ms) from `src/config.js`. -/
def POLL_INTERVAL : Nat := 2000

/-- Constant `MAX_TIMEOUT = 300000` (ms) from `src/config.js`. -/
def MAX_TIMEOUT : Nat := 300000

/-- Constant `MAX_LOGO_SIZE = 10 * 1024 * 1024` (bytes) from `src/config.js`. -/
def MAX_LOGO_SIZE : Nat := 10 * 1024 * 1024

/-- One `{ item, color }` selection pair (`selectedPairs` entries in
`CatalogGenerator.jsx`). -/
structure Pair where
  item : String
  color : String
deriving DecidableEq, Repr

/-- One grouped template `{ item_name, colors: [] }` as returned by
`api.fetchGroupedTemplates()`. -/
structure Template where
  item_name : String
  colors : List String
deriving DecidableEq, Repr

/-- The job state returned by `api.getJobStatus` (the `jobs` row the
Job Query API serves): `status`, `progress`, and the conditional
`pdf_url` / `error_message` fields.  `progress`, `pdf_url` and
`error_message` are nullable in the schema, hence `Option`. -/
structure JobResponse where
  status : String
  progress : Option Nat
  pdf_url : Option String
  error_message : Option String
deriving DecidableEq, Repr

/-- The pieces of `CatalogGenerator` component state the polling loop and
the status display read and write: `loading`, the liveness of the poll
interval (`clearInterval` not yet called), `progress`, `pdfUrl` (a JS
string state, initialised `''`, but assigned the nullable `job.pdf_url`,
hence `Option String` with `some ""` as the initial value) and `error`. -/
structure ClientState where
  loading : Bool
  pollingActive : Bool
  progress : Nat
  pdfUrl : Option String
  error : String
deriving DecidableEq, Repr

/-- Client state right after `handleSubmit` passes validation and the
job-creation request returns: `loading` was set `true`, `error`/`pdfUrl`/
`progress` were reset, and the poll interval was installed. -/
def startedPolling : ClientState :=
  { loading := true, pollingActive := true, progress := 0
    pdfUrl := some "", error := "" }

/-- One tick of the `setInterval` callback in `pollJobStatus`
(`CatalogGenerator.jsx`): store `job.progress || 0`; on `'completed'`
clear the interval, expose `job.pdf_url` and stop loading; on `'failed'`
clear the interval, expose `job.error_message || 'Erro ao gerar
catálogo'` and stop loading; otherwise keep polling. -/
def pollStep (job : JobResponse) (s : ClientState) : ClientState :=
  let s1 := { s with progress := jsOrZero job.progress }
  if job.status = "completed" then
    { s1 with pollingActive := false, pdfUrl := job.pdf_url, loading := false }
  else if job.status = "failed" then
    { s1 with pollingActive := false
              error := jsOrDefault job.error_message "Erro ao gerar catálogo"
              loading := false }
  else s1

/-- The `setTimeout` callback installed by `pollJobStatus`: always clears
the interval; then, only if the `loading` value captured by the closure
is truthy, reports `'Tempo esgotado'` and stops loading.  `captured` is
the value of the `loading` binding in the render scope in which
`pollJobStatus` was created. -/
def timeoutHandler (captured : Bool) (s : ClientState) : ClientState :=
  let s1 := { s with pollingActive := false }
  if captured then { s1 with error := "Tempo esgotado", loading := false }
  else s1

/-- Because `handleSubmit` is only reachable from a render where the submit
button is enabled, i.e. `loading = false`; `setLoading(true)` does not
rebind the render-scope `loading` constant, so the `loading` value the
`pollJobStatus` closure captures is `false`. -/
def capturedLoadingAtSubmit : Bool := false

/-- What the `StatusMessage` component renders. -/
inductive StatusRender where
  | errorBox (msg : String)
  | successBox (url : String)
  | empty
deriving DecidableEq, Repr

/-- The `StatusMessage` component (`src/unnamed/part_001`): `if (error)`
render the error box; else `if (pdfUrl)` render the success box with the
download link; else render nothing. -/
def StatusMessage (error : String) (pdfUrl : Option String) : StatusRender :=
  if error ≠ "" then .errorBox error
  else if jsTruthy pdfUrl then .successBox (pdfUrl.getD "")
  else .empty

/-- Whether a render is the error box. -/
def StatusRender.isError : StatusRender → Bool
  | .errorBox _ => true
  | _ => false

/-- Whether a render is the success (PDF download) box. -/
def StatusRender.isSuccess : StatusRender → Bool
  | .successBox _ => true
  | _ => false

/-- The `CatalogGenerator` component state that `handleSubmit` reads and
writes (second, current revision of the component: two logo files and
`selectedPairs`). -/
structure FormState where
  customerName : String
  industry : String
  catalogType : String
  logoDarkFile : Option File
  logoLightFile : Option File
  frontLogoPosition : String
  availableTemplates : List Template
  selectedPairs : List Pair
  loading : Bool
  progress : Nat
  pdfUrl : Option String
  error : String
deriving DecidableEq, Repr

/-- The JSON payload `handleSubmit` posts to `api.generateCatalog`. -/
structure Payload where
  customer_name : String
  industry : String
  logo_dark : String
  logo_light : String
  front_logo_position : String
  selections : List Pair
deriving DecidableEq, Repr

/-- Outcome of `handleSubmit`: either it returned during validation with
an error set and no job-creation request issued, or it issued
`api.generateCatalog(payload)` (the `captured` field records the
render-scope `loading` value the subsequent `pollJobStatus` closure sees). -/
inductive SubmitOutcome where
  | rejected (state : FormState)
  | submitted (state : FormState) (payload : Payload) (captured : Bool)
deriving DecidableEq, Repr

/-- The default selections built by `handleSubmit` for non-`custom`
catalog types: `availableTemplates.slice(0, 3)`, and for each template
`template.colors.slice(0, 2)`, pushing `{ item: template.item_name,
color }` in order. -/
def defaultSelections (templates : List Template) : List Pair :=
  (templates.take 3).flatMap fun t =>
    (t.colors.take 2).map fun c => { item := t.item_name, color := c }

/-- Function `handleSubmit` (`CatalogGenerator.jsx`): clear `error`/`pdfUrl`,
reset `progress` to 0, then validate (empty trimmed customer name;
missing either logo; `custom` with no selected pairs), returning early
with a descriptive error on failure; on success set `loading`, build the
selections (explicit pairs for `custom`, `defaultSelections` otherwise)
and post the payload. -/
def handleSubmit (s : FormState) : SubmitOutcome :=
  let s0 := { s with error := "", pdfUrl := some "", progress := 0 }
  if jsTrim s0.customerName = "" then
    .rejected { s0 with error := "Por favor, insira o nome do cliente" }
  else if s0.logoDarkFile = none ∨ s0.logoLightFile = none then
    .rejected { s0 with
      error := "Por favor, carregue ambos os logótipos (fundo escuro e claro)" }
  else if s0.catalogType = "custom" ∧ s0.selectedPairs = [] then
    .rejected { s0 with
      error := "Por favor, selecione pelo menos uma combinação de artigo e cor" }
  else
    let s1 := { s0 with loading := true }
    let selections :=
      if s1.catalogType = "custom" then s1.selectedPairs
      else defaultSelections s1.availableTemplates
    .submitted s1
      { customer_name := s1.customerName
        industry := s1.industry
        logo_dark := fileToBase64 (s1.logoDarkFile.getD ⟨0, ""⟩)
        logo_light := fileToBase64 (s1.logoLightFile.getD ⟨0, ""⟩)
        front_logo_position := s1.frontLogoPosition
        selections := selections }
      s.loading

/-- Returns `true` iff `handleSubmit` returned during validation (no
`api.generateCatalog` request was issued). -/
def SubmitOutcome.isRejected : SubmitOutcome → Bool
  | .rejected _ => true
  | .submitted _ _ _ => false

/-- The component state after `handleSubmit` ran. -/
def SubmitOutcome.state : SubmitOutcome → FormState
  | .rejected s => s
  | .submitted s _ _ => s

/-- The selections of the issued payload, `none` when no request was
issued. -/
def SubmitOutcome.selections? : SubmitOutcome → Option (List Pair)
  | .rejected _ => none
  | .submitted _ p _ => some p.selections

/-- Function `handleLogoDarkChange` (`CatalogGenerator.jsx`), given the file of
the change event (`none` when no file was picked): reject an oversized
file with an error and leave the staged file untouched; otherwise stage
it. (The preview data-URL state is omitted.) -/
def handleLogoDarkChange (file? : Option File) (s : FormState) : FormState :=
  match file? with
  | none => s
  | some file =>
    if ¬ validateLogoSize file MAX_LOGO_SIZE then
      { s with error := "O logótipo não pode exceder 10MB" }
    else
      { s with logoDarkFile := some file }

/-- The pair key `` `${itemName}|${color}` `` used by
`toggleColorForItem`. -/
def pairKeyStr (itemName color : String) : String :=
  itemName ++ "|" ++ color

/-- Function `toggleColorForItem(itemName, color)` (`CatalogGenerator.jsx`):
if some selected pair has the same `` `${item}|${color}` `` key, remove
every pair with that key; otherwise append `{ item: itemName, color }`. -/
def toggleColorForItem (itemName color : String) (selectedPairs : List Pair) :
    List Pair :=
  let pairKey := pairKeyStr itemName color
  let exs := selectedPairs.any fun p => pairKeyStr p.item p.color = pairKey
  if exs then
    selectedPairs.filter fun p => ¬ (pairKeyStr p.item p.color = pairKey)
  else
    selectedPairs ++ [{ item := itemName, color := color }]

/-- A JS object as `getUniqueValues` inspects it: property lookup by
key, returning `undefined` (`none`) or a string value. -/
def Item : Type := String → Option String

/-- The `new Set(...)` iteration order: insertion order, keeping the first
occurrence of each value. -/
def jsSetDedup (l : List (Option String)) : List (Option String) :=
  l.foldl (fun acc x => if x ∈ acc then acc else acc ++ [x]) []

/-- Function `getUniqueValues` from `src/frontend/src/utils/helpers.js`:
`[...new Set(array.map(item => item[key]))].filter(Boolean)`. -/
def getUniqueValues (array : List Item) (key : String) : List (Option String) :=
  (jsSetDedup (array.map fun item => item key)).filter jsTruthy

/-- Function `getUniqueValues` as duplicated in the helpers copy appended to
`src/frontend/src/components/ProgressBar.jsx`:
`[...new Set(array.map(item => item[key]))]` — no `.filter(Boolean)`. -/
def getUniqueValuesPB (array : List Item) (key : String) : List (Option String) :=
  jsSetDedup (array.map fun item => item key)

/-- Modelled from the spec: the server-side Job record invariant
(spec §3 "Invariants") for responses served by the Job Query API; the
backend Job Store and Orchestrator are not under `src/`.  Once status is
terminal exactly one of `pdf_url` / `error_message` is present
(`completed` sets `pdf_url`, `failed` sets `error_message`); neither is
present while non-terminal. -/
def WellFormedResponse (job : JobResponse) : Prop :=
  (job.status = "completed" → jsTruthy job.pdf_url = true ∧ job.error_message = none) ∧
  (job.status = "failed" → jsTruthy job.error_message = true ∧ job.pdf_url = none) ∧
  (job.status ≠ "completed" → job.status ≠ "failed" →
    job.pdf_url = none ∧ job.error_message = none)

/-- Modelled from the spec: the backend job record as stored in the Job
Store (spec §3); the backend is not under `src/`. -/
structure Job where
  status : String
  progress : Nat
  pdf_url : Option String
  error_message : Option String
deriving DecidableEq, Repr

/-- Modelled from the spec: the job at creation — status `pending`,
progress 0, no artifact, no error (spec §4.1). -/
def initialJob : Job :=
  { status := "pending", progress := 0, pdf_url := none, error_message := none }

/-- Modelled from the spec: the sequence of Job Store states a single
pipeline execution writes (spec §4.1 steps 1–6); the backend Orchestrator
is not under `src/`.  `uploadOk`, `s1Ok`, `s2Ok`, `s3Ok` are the outcomes
of asset staging and of the three external stages; progress milestones
are 33 after stage 1, 66 after stage 2, 100 on completion; a failure
short-circuits, sets `error_message`, and leaves progress at the
last-known-good milestone. -/
def pipelineTrace (uploadOk s1Ok s2Ok s3Ok : Bool) (url msg : String) :
    List Job :=
  let j0 := initialJob
  let j1 := { j0 with status := "processing" }
  if ¬ uploadOk then
    [j0, j1, { j1 with status := "failed", error_message := some msg }]
  else if ¬ s1Ok then
    [j0, j1, { j1 with status := "failed", error_message := some msg }]
  else
    let j2 := { j1 with progress := 33 }
    if ¬ s2Ok then
      [j0, j1, j2, { j2 with status := "failed", error_message := some msg }]
    else
      let j3 := { j2 with progress := 66 }
      if ¬ s3Ok then
        [j0, j1, j2, j3, { j3 with status := "failed", error_message := some msg }]
      else
        [j0, j1, j2, j3,
         { j3 with status := "completed", progress := 100, pdf_url := some url }]

/-- The Job Query API response for a stored job (spec §4.5: pure
read-through). -/
def jobToResponse (j : Job) : JobResponse :=
  { status := j.status, progress := some j.progress
    pdf_url := j.pdf_url, error_message := j.error_message }

/-- The progress value the client displays after polling a given stored
job state: `pollStep` stores `job.progress || 0`. -/
def displayedProgress (j : Job) : Nat :=
  (pollStep (jobToResponse j) startedPolling).progress

/-- Modelled from the spec: outcome classification of one call to an
external stage endpoint (spec §4.4): success, transient failure
(network/timeout/5xx — retryable), or fatal failure (structured
application-level error — not retryable).  The backend Stage Client is
not under `src/`. -/
inductive CallOutcome where
  | success
  | transient
  | fatal
deriving DecidableEq, Repr

/-- Result of a stage invocation after the retry policy ran. -/
inductive StageResult where
  | ok
  | fatalError
  | exhausted
deriving DecidableEq, Repr

/-- Modelled from the spec: the bounded-retry loop of the Stage Client
(spec §4.1 "Idempotence / retries", §7 StageTransientError): attempt the
call; success and fatal outcomes end the loop at once; a transient
outcome is retried (with backoff, whose timing is not modelled) while
retries remain.  `oracle k` is the outcome of the `k`-th call; returns
the result together with the number of calls made. -/
def attemptFrom (oracle : Nat → CallOutcome) :
    Nat → Nat → StageResult × Nat
  | 0, k =>
    match oracle k with
    | .success => (.ok, 1)
    | .fatal => (.fatalError, 1)
    | .transient => (.exhausted, 1)
  | n + 1, k =>
    match oracle k with
    | .success => (.ok, 1)
    | .fatal => (.fatalError, 1)
    | .transient =>
      let r := attemptFrom oracle n (k + 1)
      (r.1, r.2 + 1)

/-- Modelled from the spec: invoke a stage with at most `maxRetries`
retries after the first call (so at most `maxRetries + 1` calls). -/
def invokeWithRetry (oracle : Nat → CallOutcome) (maxRetries : Nat) :
    StageResult × Nat :=
  attemptFrom oracle maxRetries 0

/-- The pipeline proceeds past a stage exactly when the retry loop ended
in success; otherwise the job is marked `FAILED` (spec §4.1 step 6). -/
def stageProceeds (r : StageResult) : Bool :=
  r = .ok

/-! ## Sample states used by witnesses and counterexamples -/

/-- A form state mid-session: whitespace-only customer name, both logos
staged, a nonempty selection, and a nonzero `progress` left over from an
earlier polling session. -/
def sampleFormBlankName : FormState :=
  { customerName := " ", industry := "construction", catalogType := "custom"
    logoDarkFile := some ⟨2048, "ZGFyaw"⟩, logoLightFile := some ⟨4096, "bGlnaHQ"⟩
    frontLogoPosition := "peito_esquerdo", availableTemplates := []
    selectedPairs := [{ item := "Jacket", color := "Red" }]
    loading := false, progress := 50, pdfUrl := some "", error := "" }

/-- A form state with a valid name and logos but `custom` type and an
empty selection. -/
def sampleFormEmptySelection : FormState :=
  { customerName := "Acme", industry := "construction", catalogType := "custom"
    logoDarkFile := some ⟨2048, "ZGFyaw"⟩, logoLightFile := some ⟨4096, "bGlnaHQ"⟩
    frontLogoPosition := "peito_esquerdo", availableTemplates := []
    selectedPairs := [], loading := false, progress := 0
    pdfUrl := some "", error := "" }

/-- A valid `industry`-type form state with four available templates and
a stale explicit selection that non-custom submission must ignore. -/
def sampleFormIndustry : FormState :=
  { customerName := "Acme", industry := "construction", catalogType := "industry"
    logoDarkFile := some ⟨2048, "ZGFyaw"⟩, logoLightFile := some ⟨4096, "bGlnaHQ"⟩
    frontLogoPosition := "peito_esquerdo"
    availableTemplates :=
      [ { item_name := "Polo", colors := ["Red", "Blue", "Green"] }
      , { item_name := "Tee", colors := ["Black"] }
      , { item_name := "Cap", colors := ["White", "Red"] }
      , { item_name := "Vest", colors := ["Orange"] } ]
    selectedPairs := [{ item := "Ignored", color := "Pair" }]
    loading := false, progress := 0, pdfUrl := some "", error := "" }

/-! ## C2 — empty-name submission -/

/-- C2 (counterexample): the claim says a submission with an
empty/whitespace customer name leaves the submission state — including
`progress` — unchanged; but `handleSubmit` resets `progress` to 0 before
validating, so a rejected submission from a state with `progress = 50`
ends with `progress = 0`. -/
theorem C2_progress_reset_counterexample :
    (handleSubmit sampleFormBlankName).isRejected = true ∧
    sampleFormBlankName.progress = 50 ∧
    ((handleSubmit sampleFormBlankName).state).progress = 0 := by
  decide

/-- C2 (amended): a submission whose customer name trims to the empty
string is rejected synchronously with a descriptive error and no
job-creation request is issued; the selected pairs and staged logos are
unchanged, while `progress` is reset to 0 (and `pdfUrl`/`error` are
cleared) before validation runs. -/
theorem C2_empty_name_rejected (s : FormState)
    (h : jsTrim s.customerName = "") :
    (handleSubmit s).isRejected = true ∧
    ((handleSubmit s).state).error = "Por favor, insira o nome do cliente" ∧
    ((handleSubmit s).state).selectedPairs = s.selectedPairs ∧
    ((handleSubmit s).state).logoDarkFile = s.logoDarkFile ∧
    ((handleSubmit s).state).logoLightFile = s.logoLightFile ∧
    ((handleSubmit s).state).progress = 0 := by
  simp [handleSubmit, h, SubmitOutcome.isRejected, SubmitOutcome.state]

/-- C2 witness: the amended statement at the whitespace-name sample
state. -/
theorem C2_empty_name_rejected_witness :
    (handleSubmit sampleFormBlankName).isRejected = true ∧
    ((handleSubmit sampleFormBlankName).state).error =
      "Por favor, insira o nome do cliente" ∧
    ((handleSubmit sampleFormBlankName).state).selectedPairs =
      sampleFormBlankName.selectedPairs ∧
    ((handleSubmit sampleFormBlankName).state).logoDarkFile =
      sampleFormBlankName.logoDarkFile ∧
    ((handleSubmit sampleFormBlankName).state).logoLightFile =
      sampleFormBlankName.logoLightFile ∧
    ((handleSubmit sampleFormBlankName).state).progress = 0 :=
  C2_empty_name_rejected sampleFormBlankName (by decide)

/-! ## C3 — custom type with empty selection -/

/-- C3: every submission with `catalogType = "custom"` and an empty
selection is rejected synchronously with a descriptive (nonempty) error
and no job-creation request is issued. -/
theorem C3_custom_empty_selection_rejected (s : FormState)
    (hc : s.catalogType = "custom") (he : s.selectedPairs = []) :
    (handleSubmit s).isRejected = true ∧
    ((handleSubmit s).state).error ≠ "" := by
  simp only [handleSubmit, hc, he]
  split_ifs <;>
    simp_all [SubmitOutcome.isRejected, SubmitOutcome.state]

/-- C3 witness: the statement at the empty-selection sample state. -/
theorem C3_custom_empty_selection_rejected_witness :
    (handleSubmit sampleFormEmptySelection).isRejected = true ∧
    ((handleSubmit sampleFormEmptySelection).state).error ≠ "" :=
  C3_custom_empty_selection_rejected sampleFormEmptySelection rfl rfl

/-! ## C5 — logo size bound -/

/-- C5: `validateLogoSize` against `MAX_LOGO_SIZE` accepts a file iff its
size is at most `10 * 1024 * 1024` bytes; a file of exactly 10 MiB is
accepted; and `handleLogoDarkChange` rejects an oversized file with an
error while leaving the staged logo file unchanged. -/
theorem C5_logo_size_bound (f : File) (s : FormState) :
    (validateLogoSize f MAX_LOGO_SIZE = true ↔ f.size ≤ 10 * 1024 * 1024) ∧
    validateLogoSize ⟨10 * 1024 * 1024, ""⟩ MAX_LOGO_SIZE = true ∧
    (f.size > 10 * 1024 * 1024 →
      (handleLogoDarkChange (some f) s).error = "O logótipo não pode exceder 10MB" ∧
      (handleLogoDarkChange (some f) s).logoDarkFile = s.logoDarkFile) := by
  refine ⟨by simp [validateLogoSize, MAX_LOGO_SIZE], by decide, fun h => ?_⟩
  have : ¬ validateLogoSize f MAX_LOGO_SIZE = true := by
    simp [validateLogoSize, MAX_LOGO_SIZE]
    omega
  simp [handleLogoDarkChange, this]

/-- C5 witness: a file one byte over 10 MiB is rejected and not staged. -/
theorem C5_logo_size_bound_witness :
    (handleLogoDarkChange (some ⟨10485761, "big"⟩) sampleFormIndustry).error =
      "O logótipo não pode exceder 10MB" ∧
    (handleLogoDarkChange (some ⟨10485761, "big"⟩) sampleFormIndustry).logoDarkFile =
      sampleFormIndustry.logoDarkFile :=
  (C5_logo_size_bound ⟨10485761, "big"⟩ sampleFormIndustry).2.2 (by decide)

/-! ## C1 — terminal-state trichotomy of the observed job -/

/-- Applying `jsOrDefault` with a nonempty default never yields the empty
string. -/
lemma jsOrDefault_ne_empty (x : Option String) (d : String) (hd : d ≠ "") :
    jsOrDefault x d ≠ "" := by
  cases x with
  | none => simpa [jsOrDefault] using hd
  | some s =>
    by_cases hs : s = "" <;> simp [jsOrDefault, hs, hd]

/-- Component `StatusMessage` renders a single node: it never renders the error box
and the success box at once. -/
lemma StatusMessage_not_both (e : String) (p : Option String) :
    (StatusMessage e p).isError = false ∨ (StatusMessage e p).isSuccess = false := by
  unfold StatusMessage
  split_ifs <;> simp [StatusRender.isError, StatusRender.isSuccess]

/-- C1: for a well-formed job response observed from a clean polling
state, exactly one of three cases holds after the poll tick: a
non-terminal status keeps polling with neither `pdf_url` nor an error
exposed (the status area renders nothing); `completed` stops polling and
exposes `pdf_url` (success box, no error box); `failed` stops polling
and exposes a nonempty error message (error box, no success box); and
the status area never renders both a success artifact and an error. -/
theorem C1_terminal_trichotomy (job : JobResponse) (s : ClientState)
    (hwf : WellFormedResponse job) (herr : s.error = "")
    (hpdf : s.pdfUrl = some "") :
    (job.status ≠ "completed" → job.status ≠ "failed" →
      (pollStep job s).pollingActive = s.pollingActive ∧
      jsTruthy (pollStep job s).pdfUrl = false ∧
      (pollStep job s).error = "" ∧
      StatusMessage (pollStep job s).error (pollStep job s).pdfUrl = .empty) ∧
    (job.status = "completed" →
      (pollStep job s).pollingActive = false ∧
      (pollStep job s).pdfUrl = job.pdf_url ∧
      jsTruthy (pollStep job s).pdfUrl = true ∧
      (pollStep job s).error = "" ∧
      (StatusMessage (pollStep job s).error (pollStep job s).pdfUrl).isSuccess = true ∧
      (StatusMessage (pollStep job s).error (pollStep job s).pdfUrl).isError = false) ∧
    (job.status = "failed" →
      (pollStep job s).pollingActive = false ∧
      (pollStep job s).error ≠ "" ∧
      jsTruthy (pollStep job s).pdfUrl = false ∧
      (StatusMessage (pollStep job s).error (pollStep job s).pdfUrl).isError = true ∧
      (StatusMessage (pollStep job s).error (pollStep job s).pdfUrl).isSuccess = false) ∧
    ((StatusMessage (pollStep job s).error (pollStep job s).pdfUrl).isError = false ∨
      (StatusMessage (pollStep job s).error (pollStep job s).pdfUrl).isSuccess = false) := by
  obtain ⟨hcomp, hfail, hnon⟩ := hwf
  refine ⟨?_, ?_, ?_, StatusMessage_not_both _ _⟩
  · intro hnc hnf
    obtain ⟨-, -⟩ := hnon hnc hnf
    simp [pollStep, hnc, hnf, herr, hpdf, StatusMessage, jsTruthy]
  · intro hc
    obtain ⟨hurl, -⟩ := hcomp hc
    cases hu : job.pdf_url with
    | none => rw [hu] at hurl; simp [jsTruthy] at hurl
    | some u =>
      rw [hu] at hurl
      simp only [jsTruthy, decide_eq_true_eq] at hurl
      simp [pollStep, hc, herr, hu, StatusMessage, jsTruthy, hurl,
        StatusRender.isSuccess, StatusRender.isError]
  · intro hf
    have hnc : job.status ≠ "completed" := by
      rw [hf]; decide
    have herrmsg : jsOrDefault job.error_message "Erro ao gerar catálogo" ≠ "" :=
      jsOrDefault_ne_empty _ _ (by decide)
    simp [pollStep, hf, hnc, hpdf, StatusMessage, jsTruthy, herrmsg,
      StatusRender.isSuccess, StatusRender.isError]

/-- C1 witness: a completed response with a PDF URL observed from the
freshly started polling state. -/
theorem C1_terminal_trichotomy_witness :
    (pollStep ⟨"completed", some 100, some "https://x/cat.pdf", none⟩
        startedPolling).pollingActive = false ∧
    (pollStep ⟨"completed", some 100, some "https://x/cat.pdf", none⟩
        startedPolling).pdfUrl = some "https://x/cat.pdf" ∧
    jsTruthy (pollStep ⟨"completed", some 100, some "https://x/cat.pdf", none⟩
        startedPolling).pdfUrl = true ∧
    (pollStep ⟨"completed", some 100, some "https://x/cat.pdf", none⟩
        startedPolling).error = "" ∧
    (StatusMessage
        (pollStep ⟨"completed", some 100, some "https://x/cat.pdf", none⟩
          startedPolling).error
        (pollStep ⟨"completed", some 100, some "https://x/cat.pdf", none⟩
          startedPolling).pdfUrl).isSuccess = true ∧
    (StatusMessage
        (pollStep ⟨"completed", some 100, some "https://x/cat.pdf", none⟩
          startedPolling).error
        (pollStep ⟨"completed", some 100, some "https://x/cat.pdf", none⟩
          startedPolling).pdfUrl).isError = false :=
  (C1_terminal_trichotomy ⟨"completed", some 100, some "https://x/cat.pdf", none⟩
    startedPolling (by unfold WellFormedResponse; decide) rfl rfl).2.1 rfl

/-! ## C4 — bounded polling and the silent timeout -/

/-- C4 (code evaluated at the failing scenario): the polling constants
are `POLL_INTERVAL = 2000` and `MAX_TIMEOUT = 300000`; a non-terminal
poll keeps the session alive with nothing exposed; and when the timeout
fires after a session in which no terminal status was observed, the
interval is cleared (polling stops, the server pipeline is untouched)
but — because the `loading` value captured by the `pollJobStatus`
closure at submit time is `false` — no `'Tempo esgotado'` error is
reported and `loading` stays `true`. -/
theorem C4_timeout_never_reported :
    POLL_INTERVAL = 2000 ∧ MAX_TIMEOUT = 300000 ∧
    pollStep ⟨"processing", some 33, none, none⟩ startedPolling =
      { startedPolling with progress := 33 } ∧
    capturedLoadingAtSubmit = false ∧
    (timeoutHandler capturedLoadingAtSubmit
        { startedPolling with progress := 33 }).pollingActive = false ∧
    (timeoutHandler capturedLoadingAtSubmit
        { startedPolling with progress := 33 }).error = "" ∧
    (timeoutHandler capturedLoadingAtSubmit
        { startedPolling with progress := 33 }).loading = true := by
  decide

/-! ## C6 — default selection for non-custom catalog types -/

/-- The default selection has at most 6 pairs: at most 3 templates, at
most 2 colors each. -/
lemma defaultSelections_length_le (templates : List Template) :
    (defaultSelections templates).length ≤ 6 := by
  match templates with
  | [] => simp [defaultSelections]
  | [a] =>
    simp only [defaultSelections, List.take, List.flatMap_cons,
      List.flatMap_nil, List.append_nil, List.length_map]
    have := List.length_take_le 2 a.colors
    omega
  | [a, b] =>
    simp only [defaultSelections, List.take, List.flatMap_cons,
      List.flatMap_nil, List.append_nil, List.length_append, List.length_map]
    have ha := List.length_take_le 2 a.colors
    have hb := List.length_take_le 2 b.colors
    omega
  | a :: b :: c :: rest =>
    simp only [defaultSelections, List.take, List.flatMap_cons,
      List.flatMap_nil, List.append_nil, List.length_append, List.length_map]
    have ha := List.length_take_le 2 a.colors
    have hb := List.length_take_le 2 b.colors
    have hc := List.length_take_le 2 c.colors
    omega

/-- C6: a submission with a non-custom catalog type (`industry` or
`pack`) that passes validation issues a request whose selections are the
derived default — the first 3 available templates, each contributing the
first 2 of its colors, in template order — regardless of the explicit
`selectedPairs`; and that default has at most 6 pairs. -/
theorem C6_default_selection (s : FormState)
    (hname : jsTrim s.customerName ≠ "")
    (hdark : s.logoDarkFile ≠ none) (hlight : s.logoLightFile ≠ none)
    (htype : s.catalogType = "industry" ∨ s.catalogType = "pack") :
    (handleSubmit s).selections? =
      some ((s.availableTemplates.take 3).flatMap fun t =>
        (t.colors.take 2).map fun c => { item := t.item_name, color := c }) ∧
    (handleSubmit s).isRejected = false ∧
    (defaultSelections s.availableTemplates).length ≤ 6 := by
  have hnc : s.catalogType ≠ "custom" := by
    rcases htype with h | h <;> rw [h] <;> decide
  refine ⟨?_, ?_, defaultSelections_length_le _⟩ <;>
    simp [handleSubmit, hname, hdark, hlight, hnc, SubmitOutcome.selections?,
      SubmitOutcome.isRejected, defaultSelections]

/-- C6 witness: the industry-type sample state (with a stale explicit
pair that must be ignored) submits the derived default selection. -/
theorem C6_default_selection_witness :
    (handleSubmit sampleFormIndustry).selections? =
      some ((sampleFormIndustry.availableTemplates.take 3).flatMap fun t =>
        (t.colors.take 2).map fun c => { item := t.item_name, color := c }) ∧
    (handleSubmit sampleFormIndustry).isRejected = false ∧
    (defaultSelections sampleFormIndustry.availableTemplates).length ≤ 6 :=
  C6_default_selection sampleFormIndustry (by decide) (by decide) (by decide)
    (Or.inl rfl)

/-! ## C7 — progress range and monotonicity (spec-modelled backend) -/

/-- C7: along every pipeline execution — whatever the staging and stage
outcomes — the progress values the client displays for the successive
Job Store states (`job.progress || 0` as stored by `pollStep`) are
sorted non-decreasing, and every one of them is at most 100.  So
repeated polling of a job never observes a decrease, and the observed
progress is an integer in 0–100. -/
theorem C7_progress_monotone (uploadOk s1Ok s2Ok s3Ok : Bool)
    (url msg : String) :
    List.Sorted (· ≤ ·)
      ((pipelineTrace uploadOk s1Ok s2Ok s3Ok url msg).map displayedProgress) ∧
    ((pipelineTrace uploadOk s1Ok s2Ok s3Ok url msg).map displayedProgress).all
      (fun p => decide (p ≤ 100)) = true := by
  cases uploadOk <;> cases s1Ok <;> cases s2Ok <;> cases s3Ok <;>
    constructor <;>
    simp [pipelineTrace, displayedProgress, pollStep, jobToResponse,
      startedPolling, jsOrZero, initialJob, List.Sorted]

/-! ## C8 — bounded retries with no retry of fatal errors
(spec-modelled backend) -/

/-- The retry loop makes at most `retriesLeft + 1` calls. -/
lemma attemptFrom_calls_le (oracle : Nat → CallOutcome) :
    ∀ r k, (attemptFrom oracle r k).2 ≤ r + 1 := by
  intro r
  induction r with
  | zero =>
    intro k
    simp only [attemptFrom]
    cases oracle k <;> simp
  | succ n ih =>
    intro k
    simp only [attemptFrom]
    cases oracle k <;> simp
    exact le_trans (ih (k + 1)) (by omega)

/-- C8: external stage calls are retried a bounded number of times —
at most `maxRetries + 1` calls for any outcome sequence; a structured
(fatal) application error ends the invocation after exactly one call
(never retried); with `maxRetries = 2`, two consecutive transient
failures followed by a success yield success after 3 calls (the pipeline
proceeds past the stage), while three consecutive transient failures
exhaust the retries after 3 calls (the pipeline does not proceed, so the
job is marked FAILED). -/
theorem C8_retry_policy :
    (∀ (oracle : Nat → CallOutcome) (maxRetries : Nat),
      (invokeWithRetry oracle maxRetries).2 ≤ maxRetries + 1) ∧
    (∀ maxRetries : Nat,
      invokeWithRetry (fun _ => .fatal) maxRetries = (.fatalError, 1)) ∧
    invokeWithRetry (fun k => if k < 2 then .transient else .success) 2 =
      (.ok, 3) ∧
    stageProceeds
      (invokeWithRetry (fun k => if k < 2 then .transient else .success) 2).1 =
      true ∧
    invokeWithRetry (fun _ => .transient) 2 = (.exhausted, 3) ∧
    stageProceeds (invokeWithRetry (fun _ => .transient) 2).1 = false := by
  refine ⟨fun oracle maxRetries => attemptFrom_calls_le oracle maxRetries 0,
    fun maxRetries => ?_, by decide, by decide, by decide, by decide⟩
  cases maxRetries <;> rfl

/-! ## C9 — the two `getUniqueValues` copies -/

/-- Elements of the set-dedup fold come from the accumulator or the
list. -/
lemma mem_foldl_insert (l : List (Option String)) :
    ∀ (acc : List (Option String)) (x : Option String),
      x ∈ l.foldl (fun acc y => if y ∈ acc then acc else acc ++ [y]) acc →
      x ∈ acc ∨ x ∈ l := by
  induction l with
  | nil => intro acc x h; exact Or.inl h
  | cons y t ih =>
    intro acc x h
    simp only [List.foldl_cons] at h
    rcases ih _ x h with h1 | h1
    · by_cases hy : y ∈ acc
      · rw [if_pos hy] at h1
        exact Or.inl h1
      · rw [if_neg hy] at h1
        rcases List.mem_append.mp h1 with h2 | h2
        · exact Or.inl h2
        · right
          simp only [List.mem_singleton] at h2
          simp [h2]
    · right
      simp [h1]

/-- Function `jsSetDedup` only returns values of the input list. -/
lemma mem_jsSetDedup {x : Option String} {l : List (Option String)}
    (h : x ∈ jsSetDedup l) : x ∈ l := by
  rcases mem_foldl_insert l [] x h with h1 | h1
  · exact absurd h1 (List.not_mem_nil x)
  · exact h1

/-- C9 (counterexample): the two `getUniqueValues` implementations
disagree — on an object whose looked-up property is the falsy `''`, the
helpers version (with `.filter(Boolean)`) drops the value while the copy
in `ProgressBar.jsx` keeps it. -/
theorem C9_getUniqueValues_counterexample :
    getUniqueValues [fun _ => some ""] "color" = [] ∧
    getUniqueValuesPB [fun _ => some ""] "color" = [some ""] ∧
    getUniqueValues [fun _ => some ""] "color" ≠
      getUniqueValuesPB [fun _ => some ""] "color" := by
  refine ⟨rfl, rfl, by decide⟩

/-- C9 (amended): the two implementations agree on every input whose
looked-up values are all truthy (present and nonempty); in general the
helpers version additionally drops falsy values
(`undefined`/`''`), which the `ProgressBar.jsx` copy keeps. -/
theorem C9_getUniqueValues_equiv (array : List Item) (key : String)
    (h : ∀ item ∈ array, jsTruthy (item key) = true) :
    getUniqueValues array key = getUniqueValuesPB array key := by
  unfold getUniqueValues getUniqueValuesPB
  apply List.filter_eq_self.mpr
  intro v hv
  have hv' : v ∈ array.map fun item => item key := mem_jsSetDedup hv
  rcases List.mem_map.mp hv' with ⟨item, hitem, rfl⟩
  exact h item hitem

/-- C9 witness: the two implementations agree on a one-object array with
a truthy `color`. -/
theorem C9_getUniqueValues_equiv_witness :
    getUniqueValues [fun _ => some "Red"] "color" =
      getUniqueValuesPB [fun _ => some "Red"] "color" :=
  C9_getUniqueValues_equiv [fun _ => some "Red"] "color" (by
    intro item hitem
    rw [List.mem_singleton] at hitem
    subst hitem
    rfl)

/-! ## C10 — `toggleColorForItem` as an involution -/

/-- Splitting a character list at a separator absent from both prefixes
is unambiguous. -/
lemma bar_split_inj : ∀ (xs zs ys ws : List Char),
    '|' ∉ xs → '|' ∉ zs →
    xs ++ '|' :: ys = zs ++ '|' :: ws → xs = zs ∧ ys = ws := by
  intro xs
  induction xs with
  | nil =>
    intro zs ys ws _ hz h
    cases zs with
    | nil => simpa using h
    | cons z zt =>
      simp only [List.nil_append, List.cons_append, List.cons.injEq] at h
      exact absurd (h.1 ▸ List.mem_cons_self z zt) hz
  | cons x xt ih =>
    intro zs ys ws hx hz h
    cases zs with
    | nil =>
      simp only [List.cons_append, List.nil_append, List.cons.injEq] at h
      exact absurd (h.1 ▸ List.mem_cons_self x xt) hx
    | cons z zt =>
      simp only [List.cons_append, List.cons.injEq] at h
      obtain ⟨hxz, h2⟩ := h
      have hx' : '|' ∉ xt := fun m => hx (List.mem_cons_of_mem _ m)
      have hz' : '|' ∉ zt := fun m => hz (List.mem_cons_of_mem _ m)
      obtain ⟨h3, h4⟩ := ih zt ys ws hx' hz' h2
      exact ⟨by rw [hxz, h3], h4⟩

/-- When the item names are `'|'`-free, the `` `${item}|${color}` `` key
encoding is injective. -/
lemma pairKeyStr_inj {a b c d : String}
    (ha : '|' ∉ a.data) (hc : '|' ∉ c.data)
    (h : pairKeyStr a b = pairKeyStr c d) : a = c ∧ b = d := by
  have hdata : a.data ++ '|' :: b.data = c.data ++ '|' :: d.data := by
    have h2 := congrArg String.data h
    simpa [pairKeyStr, String.data_append] using h2
  obtain ⟨h1, h2⟩ := bar_split_inj _ _ _ _ ha hc hdata
  exact ⟨String.ext h1, String.ext h2⟩

/-- Key equality coincides with pair equality when the item names are
`'|'`-free. -/
lemma pairKey_eq_iff {itemName color : String} {p : Pair}
    (hi : '|' ∉ itemName.data) (hp : '|' ∉ p.item.data) :
    pairKeyStr p.item p.color = pairKeyStr itemName color ↔
      p = { item := itemName, color := color } := by
  constructor
  · intro h
    obtain ⟨h1, h2⟩ := pairKeyStr_inj hp hi h
    cases p
    simp_all
  · intro h
    rw [h]

/-- Membership behaviour of a single toggle, assuming `'|'`-free item
names: the toggled pair's membership is flipped; every other pair's
membership is untouched. -/
lemma toggle_mem (itemName color : String) (l : List Pair)
    (hi : '|' ∉ itemName.data) (hl : ∀ p ∈ l, '|' ∉ p.item.data) :
    ((⟨itemName, color⟩ : Pair) ∈ toggleColorForItem itemName color l ↔
      (⟨itemName, color⟩ : Pair) ∉ l) ∧
    ∀ q : Pair, q ≠ ⟨itemName, color⟩ →
      (q ∈ toggleColorForItem itemName color l ↔ q ∈ l) := by
  simp only [toggleColorForItem]
  by_cases hex :
      (l.any fun p => pairKeyStr p.item p.color = pairKeyStr itemName color) = true
  · have hmem : (⟨itemName, color⟩ : Pair) ∈ l := by
      rcases List.any_eq_true.mp hex with ⟨p, hp, hkey⟩
      rw [decide_eq_true_eq] at hkey
      exact (pairKey_eq_iff hi (hl p hp)).mp hkey ▸ hp
    rw [if_pos hex]
    constructor
    · constructor
      · intro habs
        have := (List.mem_filter.mp habs).2
        simp at this
      · intro habs
        exact absurd hmem habs
    · intro q hq
      constructor
      · intro hqf
        exact (List.mem_filter.mp hqf).1
      · intro hql
        refine List.mem_filter.mpr ⟨hql, ?_⟩
        simp only [decide_eq_true_eq, decide_not, Bool.not_eq_true',
          decide_eq_false_iff_not]
        intro hkey
        exact hq ((pairKey_eq_iff hi (hl q hql)).mp hkey)
  · have hnmem : (⟨itemName, color⟩ : Pair) ∉ l := by
      intro habs
      apply hex
      refine List.any_eq_true.mpr ⟨_, habs, ?_⟩
      simp
    rw [if_neg hex]
    constructor
    · simp [hnmem]
    · intro q hq
      simp [List.mem_append, hq]

/-- A toggle preserves `'|'`-freeness of the item names. -/
lemma toggle_barFree (itemName color : String) (l : List Pair)
    (hi : '|' ∉ itemName.data) (hl : ∀ p ∈ l, '|' ∉ p.item.data) :
    ∀ p ∈ toggleColorForItem itemName color l, '|' ∉ p.item.data := by
  intro p hp
  simp only [toggleColorForItem] at hp
  split at hp
  · exact hl p (List.mem_filter.mp hp).1
  · rcases List.mem_append.mp hp with h | h
    · exact hl p h
    · rw [List.mem_singleton] at h
      subst h
      exact hi

/-- C10 (counterexample): the claim fails as stated because the
`` `${item}|${color}` `` key encoding collides when an item name
contains `'|'`: toggling `("a", "b|c")` on the selection
`[{item: "a|b", color: "c"}]` removes the *other* pair (its key is the
same string `"a|b|c"`), and toggling twice yields `[{item: "a",
color: "b|c"}]`, not the original contents. -/
theorem C10_toggle_counterexample :
    toggleColorForItem "a" "b|c" [{ item := "a|b", color := "c" }] = [] ∧
    toggleColorForItem "a" "b|c"
        (toggleColorForItem "a" "b|c" [{ item := "a|b", color := "c" }]) =
      [{ item := "a", color := "b|c" }] ∧
    ({ item := "a|b", color := "c" } : Pair) ∉
      toggleColorForItem "a" "b|c"
        (toggleColorForItem "a" "b|c" [{ item := "a|b", color := "c" }]) := by
  refine ⟨rfl, rfl, by decide⟩

/-- C10 (amended): provided the toggled item name and the item names in
the selection contain no `'|'` (so the key encoding is injective),
toggling twice restores exactly the original membership (the list may be
reordered: a removed-and-readded pair returns at the end), a single
toggle makes `(item, color)` a member iff it was not one before, and the
membership of every other pair is unchanged by a toggle. -/
theorem C10_toggle_involution (itemName color : String) (l : List Pair)
    (hi : '|' ∉ itemName.data) (hl : ∀ p ∈ l, '|' ∉ p.item.data) :
    (∀ q : Pair, q ∈ toggleColorForItem itemName color
        (toggleColorForItem itemName color l) ↔ q ∈ l) ∧
    ((⟨itemName, color⟩ : Pair) ∈ toggleColorForItem itemName color l ↔
      (⟨itemName, color⟩ : Pair) ∉ l) ∧
    (∀ q : Pair, q ≠ ⟨itemName, color⟩ →
      (q ∈ toggleColorForItem itemName color l ↔ q ∈ l)) := by
  obtain ⟨hA, hB⟩ := toggle_mem itemName color l hi hl
  obtain ⟨hA2, hB2⟩ := toggle_mem itemName color
    (toggleColorForItem itemName color l) hi (toggle_barFree itemName color l hi hl)
  refine ⟨fun q => ?_, hA, hB⟩
  by_cases hq : q = (⟨itemName, color⟩ : Pair)
  · subst hq
    rw [hA2, hA]
    exact not_not
  · rw [hB2 q hq, hB q hq]

/-- C10 witness: toggling `("Jacket", "Red")` on a `'|'`-free selection
flips its membership. -/
theorem C10_toggle_involution_witness :
    ((⟨"Jacket", "Red"⟩ : Pair) ∈
        toggleColorForItem "Jacket" "Red" [{ item := "Polo", color := "Blue" }] ↔
      (⟨"Jacket", "Red"⟩ : Pair) ∉ [({ item := "Polo", color := "Blue" } : Pair)]) :=
  (C10_toggle_involution "Jacket" "Red" [{ item := "Polo", color := "Blue" }]
    (by decide) (by decide)).2.1

end MockupGen
